import Mathlib

/-!
Shallow embedding of the emerald-inbound-email-readerrouter rule datastore and
matching engine (src/email_router/email_router_datastore.py) together with the
supporting value types (email_router_destination.py, router_instance_type.py).

Modelling conventions:
* Python floats used as priority values are modelled as `Rat` (the configuration
  priorities are plain decimal literals; no claim involves rounding or NaN).
* Python `frozenset` collections are modelled as duplicate-free `List`s built
  in insertion order (`setify`); membership and equality checks in the claims
  use structural equality, matching the NamedTuple field-wise `__eq__`.
* Python exceptions are modelled by `Except RouterError`; each constructor of
  `RouterError` stands for one exception class of the source.  The
  `matchNotFound` constructor carries the accumulated trace list whose joined
  text forms the Python exception message.
* The regular-expression search `re.search(pattern, text, re.IGNORECASE)`,
  `netaddr` CIDR parsing/membership and `dateutil` timestamp parsing are
  environment facilities; the embedding is parametric in them via `Env`.
  Concrete witnesses use `pyReSearch`, which implements the case-insensitive
  substring semantics `re.search` has on metacharacter-free patterns.
* `datetime` values are modelled as a wall-clock minute count plus an optional
  UTC offset in minutes (`none` = naive); the process-local timezone of
  `tzlocal.get_localzone()` is modelled as a fixed offset `Env.localOffset`.
-/

namespace EmeraldRouter

/-- Python enum `EmailRouterDestinationType` (email_router_destination.py): closed enum,
only `DIRECT_PROCESSING` is defined. -/
inductive DestinationType
  | DIRECT_PROCESSING
deriving DecidableEq, Repr

/-- Python class `EmailRouterDestinationConfig` (email_router_destination.py). -/
structure DestinationConfig where
  destination_type : DestinationType
  destination_sequence : Rat
  destination_uri : Option String := none
deriving DecidableEq, Repr

/-- Python enum `RouterInstanceType` (router_instance_type.py): closed enum BLUE/GREEN. -/
inductive RouterInstanceType
  | BLUE
  | GREEN
deriving DecidableEq, Repr

/-- A Python `datetime` value: wall-clock minutes plus optional UTC offset in
minutes (`none` models a naive timestamp). -/
structure Datetime where
  wall : Int
  offset : Option Int := none
deriving DecidableEq, Repr

/-- The absolute instant (minutes since the epoch, in UTC) denoted by an aware
datetime; a naive datetime is read at offset 0. -/
def Datetime.instant (d : Datetime) : Int :=
  d.wall - d.offset.getD 0

/-- Python class `EmailRouterRuleMatchPattern` (email_router_datastore.py lines 25-66).
The `sender_ip_whitelist` holds parsed CIDR network literals. -/
structure MatchPattern where
  sender_domain : Option String := none
  sender_name : Option String := none
  recipient_name : Option String := none
  attachment_included : Option Bool := none
  body_size_minimum : Option Int := none
  body_size_maximum : Option Int := none
  sender_ip_whitelist : Option (List String) := none
deriving DecidableEq, Repr

/-- Python class `EmailRouterRule` (email_router_datastore.py lines 70-114). -/
structure Rule where
  match_priority : Rat
  match_pattern : MatchPattern
deriving DecidableEq, Repr

/-- Python class `EmailRouterTargetConfig` (email_router_datastore.py lines 117-148).
The `router_rules` and `destinations` frozensets are modelled as
duplicate-free lists in insertion order. -/
structure TargetConfig where
  target_name : String
  target_priority : Rat
  router_rules : List Rule
  destinations : List DestinationConfig
deriving DecidableEq, Repr

/-- Python class `EmailRouterMatchResult` (email_router_datastore.py lines 152-154). -/
structure MatchResult where
  matched_target_name : String
  destinations : List DestinationConfig
deriving DecidableEq, Repr

/-- Python class `EmailRouterMatchResultCollection` (lines 157-159). -/
structure MatchResultCollection where
  matched_info_log : List String
  matched_target_results : List MatchResult
deriving DecidableEq, Repr

/-- One constructor per exception class raised by the source:
`EmeraldEmailRouterDuplicateTargetError`,
`EmeraldEmailRouterDatabaseInitializationError`,
`EmeraldEmailRouterMatchNotFoundError` (carrying the trace),
`EmeraldEmailRouterConfigNotActiveError`,
`EmeraldEmailRouterInputDataError` and Python's builtin
`NotImplementedError`. -/
inductive RouterError
  | duplicateTarget (msg : String)
  | dbInitError (msg : String)
  | matchNotFound (trace : List String)
  | configNotActive (msg : String)
  | inputDataError (msg : String)
  | notImplemented (msg : String)
deriving DecidableEq, Repr

/-- Python class `EmailRouterRulesDatastore` (lines 162-262).  The
`router_rules_datastore_initialized` flag is named `activated` here (the token
of the Python name is reserved in this development); the target set is a
duplicate-free list in insertion order. -/
structure RulesDatastore where
  datastore_name : String
  revision_datetime : Datetime
  revision_number : Int
  instance_type : RouterInstanceType
  activated : Bool
  router_config_by_target : List TargetConfig
deriving DecidableEq, Repr

/-- The `target_count` property (lines 183-185). -/
def RulesDatastore.target_count (ds : RulesDatastore) : Nat :=
  ds.router_config_by_target.length

/-- The name/priority conflict scan of `add_target_routing_config`
(lines 248-259): for each existing target, first the name, then the priority
is compared; the first conflicting entry raises
`EmeraldEmailRouterDatabaseInitializationError`. -/
def findConflict (tc : TargetConfig) : List TargetConfig → Option RouterError
  | [] => none
  | t :: rest =>
    if tc.target_name = t.target_name then
      some (.dbInitError ("Conflicting entry found for target name " ++ t.target_name ++
        " - aborting new add; Duplicate target name with different configuration data"))
    else if tc.target_priority = t.target_priority then
      some (.dbInitError ("Conflicting entry found for target name " ++ t.target_name ++
        " - aborting new add; Duplicate target priority - each must be unique for sorting"))
    else
      findConflict tc rest

/-- Method `EmailRouterRulesDatastore.add_target_routing_config` (lines 232-262):
reject a structurally identical duplicate with
`EmeraldEmailRouterDuplicateTargetError`, reject a name or priority collision
with `EmeraldEmailRouterDatabaseInitializationError`, otherwise add. -/
def add_target_routing_config (ds : RulesDatastore) (tc : TargetConfig) :
    Except RouterError RulesDatastore :=
  if tc ∈ ds.router_config_by_target then
    .error (.duplicateTarget ("Duplicate target config entry (" ++ tc.target_name ++
      ") found in source data - skipping this entry"))
  else
    match findConflict tc ds.router_config_by_target with
    | some e => .error e
    | none =>
      .ok { ds with router_config_by_target := ds.router_config_by_target ++ [tc] }

/-! ### Sorting

`match_inbound_email` iterates `sorted(router_config_by_target)` and
`sorted(target.router_rules)`; `__lt__` orders by the priority field and
raises `NotImplementedError` when two compared members carry equal priority.
The insertion sorts below agree with Python's `sorted` whenever the priority
values are pairwise distinct, which is the hypothesis under which the matching
theorems are stated (equal priorities make the Python sort raise). -/

def insertTarget (t : TargetConfig) : List TargetConfig → List TargetConfig
  | [] => [t]
  | x :: xs =>
    if t.target_priority < x.target_priority then t :: x :: xs
    else x :: insertTarget t xs

def sortTargets (l : List TargetConfig) : List TargetConfig :=
  l.foldr insertTarget []

def insertRule (r : Rule) : List Rule → List Rule
  | [] => [r]
  | x :: xs =>
    if r.match_priority < x.match_priority then r :: x :: xs
    else x :: insertRule r xs

def sortRules (l : List Rule) : List Rule :=
  l.foldr insertRule []

/-! ### Matching engine (`match_inbound_email`, lines 764-927) -/

/-- The facilities the source takes from its runtime libraries:
`reSearch pat text` stands for `re.search(pat, text, re.IGNORECASE) is not
None`; `ipParse` for `netaddr.IPAddress` construction; `ipInNet a n` for
`IPAddress(a) in IPNetwork(n)`; `parseCIDR` for `netaddr.IPNetwork`
construction; `parseDt` for `dateutil.parser.parse`; `localOffset` for the
UTC offset (minutes) of `tzlocal.get_localzone()`. -/
structure Env where
  reSearch : String → String → Bool
  ipParse : String → Option String
  ipInNet : String → String → Bool
  parseCIDR : String → Option String
  parseDt : String → Option Datetime
  localOffset : Int

/-- Python `str.split(sep)` for a one-character separator, over the character
list: every occurrence splits, empty pieces are kept (so `"".split(c)`
gives one empty piece, as in Python). -/
def splitListOn (c : Char) : List Char → List (List Char)
  | [] => [[]]
  | x :: xs =>
    match splitListOn c xs with
    | [] => if x == c then [[], []] else [[x]]
    | h :: t => if x == c then [] :: h :: t else (x :: h) :: t

/-- Python `s.split(sep)` as a `String` operation. -/
def pySplit (c : Char) (s : String) : List String :=
  (splitListOn c s.data).map (fun l => { data := l })

/-- The split `address.split('@')` unpacked into exactly two names (lines 792-799):
any other shape raises `ValueError`, reported as
`EmeraldEmailRouterInputDataError`. -/
def splitAddress (s : String) : Option (String × String) :=
  match pySplit '@' s with
  | [l, r] => some (l, r)
  | _ => none

/-- The recipient scan of match 1 (lines 803-835): walk the recipient
collection in order; a malformed recipient raises input-data error; the first
local part the pattern matches ends the scan; a recipient that fails only
adds a log line - the scan (and, in the source, the whole rule) carries on. -/
def checkRecipients (env : Env) (tname pat : String) :
    Nat → List String → List String × Option RouterError
  | _, [] => ([], none)
  | i, addr :: rest =>
    let l0 := "Checking recipient #" ++ toString i ++ " (value " ++ addr ++ ")"
    match splitAddress addr with
    | none =>
      ([l0], some (.inputDataError ("Input recipient #" ++ toString i ++
        "is invalid - should be in form name@domain; Value = " ++ addr)))
    | some (nm, _) =>
      if env.reSearch pat nm then
        ([l0, "Target " ++ tname ++ " passed recipient name check"], none)
      else
        let rec_rest := checkRecipients env tname pat (i + 1) rest
        (l0 :: ("Target " ++ tname ++ " match failed on recipient #" ++ toString i ++
          " check") :: rec_rest.1, rec_rest.2)

/-- A regex-field check (match 2 / match 3, lines 839-871): absent pattern
passes silently; otherwise the search result decides pass/fail and one log
line is produced. -/
def checkRegexField (env : Env) (tname : String) (patOpt : Option String)
    (text fieldName : String) : List String × Bool :=
  match patOpt with
  | none => ([], true)
  | some pat =>
    if env.reSearch pat text then
      (["Target " ++ tname ++ " passed " ++ fieldName ++ " check"], true)
    else
      (["Target " ++ tname ++ " match failed on " ++ fieldName ++ " check"], false)

inductive IpOut
  | passIp (log : List String)
  | failIp (log : List String)
  | fatalIp (e : RouterError)
deriving DecidableEq, Repr

/-- Match 4, sender-ip whitelisting (lines 874-898): absent whitelist passes;
an unparsable sender ip raises input-data error; membership in any listed
network passes; otherwise the rule fails (and, in the source, the rule loop
for the target breaks). -/
def checkIp (env : Env) (tname : String) (wl : Option (List String))
    (sender_ip : String) : IpOut :=
  match wl with
  | none => .passIp []
  | some nets =>
    match env.ipParse sender_ip with
    | none =>
      .fatalIp (.inputDataError ("Input sender_ip invalid - cannot be converted to IP addr Value = "
        ++ sender_ip))
    | some a =>
      if nets.any (fun n => env.ipInNet a n) then
        .passIp ["Target " ++ tname ++ " passed sender ip check against whitelist"]
      else
        .failIp ["Target " ++ tname ++ " match failed on sender ip check"]

/-- Outcome of evaluating one rule inside the rule loop. `matched` appends the
target to `matched_targets` and continues with the next rule; `targetBreak`
is the `break` that abandons the remaining rules of the current target;
`fatal` is an exception propagating out of `match_inbound_email`. -/
inductive StepResult
  | matched
  | targetBreak
  | fatal (e : RouterError)
deriving DecidableEq, Repr

/-- Match 1 as a whole (lines 801-835): nothing to do when the pattern is
absent, otherwise the recipient scan. -/
def recipientCheckOf (env : Env) (tname : String) (rule : Rule)
    (address_to_collection : List String) : List String × Option RouterError :=
  match rule.match_pattern.recipient_name with
  | none => ([], none)
  | some pat => checkRecipients env tname pat 1 address_to_collection

/-- The body of the rule loop (lines 783-911): the checks run in source order
- recipient name (failure only logged), sender domain (failure breaks),
sender name (failure breaks), ip whitelist (failure breaks), then the three
unimplemented-filter guards, then the append. -/
def evalRule (env : Env) (tname : String) (rule : Rule)
    (address_to_collection : List String) (address_from sender_ip : String) :
    List String × StepResult :=
  let l0 : List String := ["Checking rule at priority " ++ toString rule.match_priority]
  match splitAddress address_from with
  | none =>
    (l0, .fatal (.inputDataError ("Input from_address invalid - should be in form name@domain; Value = "
      ++ address_from)))
  | some (senderName, senderDomain) =>
    match recipientCheckOf env tname rule address_to_collection with
    | (rl, some e) => (l0 ++ rl, .fatal e)
    | (rl, none) =>
      let dOut := checkRegexField env tname rule.match_pattern.sender_domain senderDomain
        "sender domain"
      if dOut.2 = false then (l0 ++ rl ++ dOut.1, .targetBreak)
      else
        let nOut := checkRegexField env tname rule.match_pattern.sender_name senderName
          "sender name"
        if nOut.2 = false then (l0 ++ rl ++ dOut.1 ++ nOut.1, .targetBreak)
        else
          match checkIp env tname rule.match_pattern.sender_ip_whitelist sender_ip with
          | .fatalIp e => (l0 ++ rl ++ dOut.1 ++ nOut.1, .fatal e)
          | .failIp il => (l0 ++ rl ++ dOut.1 ++ nOut.1 ++ il, .targetBreak)
          | .passIp il =>
            if rule.match_pattern.attachment_included.isSome then
              (l0 ++ rl ++ dOut.1 ++ nOut.1 ++ il,
                .fatal (.notImplemented "Code does not yet support parsing of attachment_included"))
            else if rule.match_pattern.body_size_minimum.isSome then
              (l0 ++ rl ++ dOut.1 ++ nOut.1 ++ il,
                .fatal (.notImplemented "Code does not yet support parsing of body_size_minimum"))
            else if rule.match_pattern.body_size_maximum.isSome then
              (l0 ++ rl ++ dOut.1 ++ nOut.1 ++ il,
                .fatal (.notImplemented "Code does not yet support parsing of body_size_maximum"))
            else
              (l0 ++ rl ++ dOut.1 ++ nOut.1 ++ il, .matched)

/-- The rule loop over one target's (sorted) rules.  Returns the log lines,
the number of times the target was appended to `matched_targets`, and a fatal
exception when one was raised.  A `matched` outcome does NOT stop the loop
(line 912: the source comments "do not break out of loop"); a `targetBreak`
does. -/
def evalRulesList (env : Env) (t : TargetConfig)
    (address_to_collection : List String) (address_from sender_ip : String) :
    List Rule → List String × Nat × Option RouterError
  | [] => ([], 0, none)
  | r :: rs =>
    let out := evalRule env t.target_name r address_to_collection address_from sender_ip
    match out.2 with
    | .fatal e => (out.1, 0, some e)
    | .targetBreak => (out.1, 0, none)
    | .matched =>
      let rest := evalRulesList env t address_to_collection address_from sender_ip rs
      (out.1 ++ rest.1, rest.2.1 + 1, rest.2.2)

/-- The target loop (lines 778-912): targets in sorted order, each contributing
a header line, its rule-loop log and `n` copies of itself to
`matched_targets`; a fatal exception stops everything. -/
def evalTargets (env : Env) (address_to_collection : List String)
    (address_from sender_ip : String) :
    List TargetConfig → List String × List TargetConfig × Option RouterError
  | [] => ([], [], none)
  | t :: ts =>
    let hdr := "Evaluating match for target " ++ t.target_name ++ " at priority " ++
      toString t.target_priority
    let ruleOut := evalRulesList env t address_to_collection address_from sender_ip
      (sortRules t.router_rules)
    match ruleOut.2.2 with
    | some e => (hdr :: ruleOut.1, List.replicate ruleOut.2.1 t, some e)
    | none =>
      let rest := evalTargets env address_to_collection address_from sender_ip ts
      (hdr :: ruleOut.1 ++ rest.1, List.replicate ruleOut.2.1 t ++ rest.2.1, rest.2.2)

/-- The `matched_info_log` trace accumulated by one whole evaluation. -/
def matchTrace (env : Env) (ds : RulesDatastore)
    (address_to_collection : List String) (address_from sender_ip : String) : List String :=
  (evalTargets env address_to_collection address_from sender_ip
    (sortTargets ds.router_config_by_target)).1

/-- The `matched_targets` list accumulated by one whole evaluation (one entry
per passing rule, in evaluation order). -/
def matchedTargetsOf (env : Env) (ds : RulesDatastore)
    (address_to_collection : List String) (address_from sender_ip : String) :
    List TargetConfig :=
  (evalTargets env address_to_collection address_from sender_ip
    (sortTargets ds.router_config_by_target)).2.1

/-- The exception, if any, propagating out of the evaluation loops. -/
def matchFatalOf (env : Env) (ds : RulesDatastore)
    (address_to_collection : List String) (address_from sender_ip : String) :
    Option RouterError :=
  (evalTargets env address_to_collection address_from sender_ip
    (sortTargets ds.router_config_by_target)).2.2

/-- Method `EmailRouter.match_inbound_email` (lines 764-927). -/
def match_inbound_email (env : Env) (ds : RulesDatastore)
    (address_to_collection : List String) (address_from sender_ip : String) :
    Except RouterError MatchResultCollection :=
  if ds.activated = false then
    .error (.configNotActive ("Router match table is not active - current configuration entry count: "
      ++ toString ds.target_count))
  else
    match matchFatalOf env ds address_to_collection address_from sender_ip with
    | some e => .error e
    | none =>
      if (matchedTargetsOf env ds address_to_collection address_from sender_ip).length = 0 then
        .error (.matchNotFound (matchTrace env ds address_to_collection address_from sender_ip))
      else
        .ok { matched_info_log := matchTrace env ds address_to_collection address_from sender_ip,
              matched_target_results :=
                (matchedTargetsOf env ds address_to_collection address_from sender_ip).map
                  (fun t => { matched_target_name := t.target_name,
                              destinations := t.destinations }) }

/-! ### Config loader (`EmailRouter._initialize_from_jsonfile`, lines 356-762)

The loader is embedded from the point where the JSON document has been
decoded (`json_data`); file access and `json.load` are I/O outside the
embedding.  The document model below carries each field already at the JSON
type the schema emits (strings for the textual rule fields); a document whose
values have other JSON types (e.g. a numeric `name` or a boolean
`attachment_included`, on which the source crashes with `TypeError` before
reaching its own validation) is outside the model. -/

/-- One rule object of a `match_rules` array.  `match_priority` is the parsed
float value (`none` = key absent); the remaining fields are the raw JSON
strings (`none` = key absent). -/
structure RuleJson where
  match_priority : Option Rat := none
  sender_domain : Option String := none
  sender_name : Option String := none
  recipient_name : Option String := none
  attachment_included : Option String := none
  body_size_minimum : Option String := none
  body_size_maximum : Option String := none
  sender_ip_whitelist : Option String := none
deriving DecidableEq, Repr

/-- One `(tc_name, tc_router_rules)` item of a `router_rules` map.
`target_priority` is the parsed float value (`none` = key absent). -/
structure TargetEntry where
  tc_name : String
  match_rules : Option (List RuleJson) := none
  destination : Option String := none
  destination_uri : Option String := none
  target_priority : Option Rat := none
deriving DecidableEq, Repr

/-- The decoded top-level JSON document.  `router_rules` is a list of maps,
each map a list of items (a JSON object may carry several target entries). -/
structure ConfigDoc where
  name : Option String := none
  revision_number : Option Int := none
  revision_datetime : Option String := none
  instance_type : Option String := none
  router_rules : Option (List (List TargetEntry)) := none
deriving Repr

/-- The source's present-and-non-empty convention (lines 576-599): an absent
key and an empty string both yield `None`. -/
def normField (o : Option String) : Option String :=
  match o with
  | some s => if s.length > 0 then some s else none
  | none => none

/-- A `frozenset` built from a list: drop later structural duplicates. -/
def setify {α : Type} [DecidableEq α] (l : List α) : List α :=
  l.foldl (fun acc a => if a ∈ acc then acc else acc ++ [a]) []

/-- Python `set.add` (line 623): ignore an already-present member. -/
def insertNet (n : String) (l : List String) : List String :=
  if n ∈ l then l else l ++ [n]

/-- The per-priority error dictionary `rules_parse_error_log` (line 562):
association list keyed by `match_priority`, messages appended in order. -/
abbrev ErrLog : Type := List (Rat × List String)

def logErrorAt (p : Rat) (msg : String) : ErrLog → ErrLog
  | [] => [(p, [msg])]
  | (q, ms) :: rest =>
    if p = q then (q, ms ++ [msg]) :: rest else (q, ms) :: logErrorAt p msg rest

def logErrorsAt (p : Rat) (msgs : List String) (el : ErrLog) : ErrLog :=
  msgs.foldl (fun acc m => logErrorAt p m acc) el

def errlogLookup (p : Rat) : ErrLog → Option (List String)
  | [] => none
  | (q, ms) :: rest => if p = q then some ms else errlogLookup p rest

def whitelistEntryErr (i : Nat) (e : String) : String :=
  "Unable to parse entry #" ++ toString i ++ " (value " ++ e ++
    ") as an IP network (for whitelist)"

/-- The whitelist entry loop (lines 605-623): each entry is parsed as a CIDR
network; a failing entry contributes one error message and the loop
continues; a parsed entry is added to the network set. -/
def parseWhitelistEntries (env : Env) :
    Nat → List String → List String → List String → List String × List String
  | _, [], errs, nets => (errs, nets)
  | i, e :: rest, errs, nets =>
    match env.parseCIDR e with
    | none => parseWhitelistEntries env (i + 1) rest (errs ++ [whitelistEntryErr i e]) nets
    | some n => parseWhitelistEntries env (i + 1) rest errs (insertNet n nets)

def emptyWhitelistErr (csv : String) : String :=
  "sender_ip_whitelist field specified but no valid IP networks were found; Value provided = "
    ++ csv

def noNameFieldErr : String :=
  "No sender domain, sender name or recipient pattern specified - at least one required"

/-- The validation performed on one rule object by the loop body (lines
576-668): the list of error messages in the order the source records them
(whitelist entry errors, the empty-whitelist error, the
no-name-field error, the body-size errors, the attachment error) together
with the parsed whitelist set (`some` when the field was present). -/
def ruleValidationErrors (env : Env) (rj : RuleJson) : List String × Option (List String) :=
  let wl : List String × Option (List String) :=
    match normField rj.sender_ip_whitelist with
    | none => ([], none)
    | some csv =>
      let pw := parseWhitelistEntries env 1 (pySplit ',' csv) [] []
      (pw.1 ++ (if pw.2.length = 0 then [emptyWhitelistErr csv] else []), some pw.2)
  let errs := wl.1 ++
    (if (normField rj.sender_domain).isNone && (normField rj.sender_name).isNone &&
        (normField rj.recipient_name).isNone then [noNameFieldErr] else []) ++
    (match normField rj.body_size_minimum with
      | some _ => ["body_size_minimum if specified must be a nonnegative integer"]
      | none => []) ++
    (match normField rj.body_size_maximum with
      | some _ => ["body_size_maximum if specified must be a nonnegative integer"]
      | none => []) ++
    (match normField rj.attachment_included with
      | some _ => ["attachment_included must be a boolean if present"]
      | none => [])
  (errs, wl.2)

/-- The per-rule parse of the `match_rules` loop body (lines 566-696).
A missing `match_priority` aborts the whole load; all other problems are
accumulated in the error log under the rule's priority (in source order,
via `ruleValidationErrors`), and a rule whose priority bucket is non-empty -
including errors inherited from an earlier rule at the same priority - is
skipped (with a closing log entry) instead of being created.  In the rule
actually created the unimplemented filter fields are `none`: the
zero-error branch is reachable only when they were absent or empty (a
present non-empty string records an error above). -/
def parseRule (env : Env) (idx : Nat) (rj : RuleJson) (st : ErrLog × List Rule) :
    Except RouterError (ErrLog × List Rule) :=
  match rj.match_priority with
  | none =>
    .error (.dbInitError ("Parameter match_priority not found in rule #" ++ toString idx ++
      " - aborting"))
  | some p =>
    let v := ruleValidationErrors env rj
    let el5 := logErrorsAt p v.1 st.1
    let cnt := ((errlogLookup p el5).getD []).length
    if cnt > 0 then
      .ok (logErrorAt p ("Skipping creation of rule match pattern for priority " ++ toString p ++
        " with error count of " ++ toString cnt) el5, st.2)
    else
      let newPattern : MatchPattern :=
        { sender_domain := normField rj.sender_domain,
          sender_name := normField rj.sender_name,
          recipient_name := normField rj.recipient_name, attachment_included := none,
          body_size_minimum := none, body_size_maximum := none,
          sender_ip_whitelist := v.2 }
      .ok (el5, st.2 ++ [{ match_priority := p, match_pattern := newPattern }])

/-- The `enumerate(match_rules, start=1)` loop (line 566). -/
def parseRules (env : Env) (idx : Nat) (rules : List RuleJson) (st : ErrLog × List Rule) :
    Except RouterError (ErrLog × List Rule) :=
  match rules with
  | [] => .ok st
  | r :: rest =>
    match parseRule env idx r st with
    | .error e => .error e
    | .ok st2 => parseRules env (idx + 1) rest st2

def joinComma (l : List String) : String :=
  String.intercalate "," l

/-- The per-target required-elements scan, in source order (lines 518-526). -/
def requiredElementsMissing (e : TargetEntry) : List String :=
  (if e.match_rules.isSome then [] else ["match_rules"]) ++
  (if e.destination.isSome then [] else ["destination"]) ++
  (if e.target_priority.isSome then [] else ["target_priority"])

/-- The single accumulated rule-errors report (lines 698-705). -/
def ruleErrorsMessage (el : ErrLog) : String :=
  String.intercalate "; "
    ("Unable to proceed - rule(s) had following errors: " ::
      el.map (fun pe => "Rule match priority " ++ toString pe.1 ++ ": " ++ joinComma pe.2))

/-- ASCII `str.upper()` / `str.lower()`, character-wise. -/
def asciiUpperChar (c : Char) : Char :=
  if 'a' ≤ c ∧ c ≤ 'z' then Char.ofNat (c.toNat - 32) else c

def asciiLowerChar (c : Char) : Char :=
  if 'A' ≤ c ∧ c ≤ 'Z' then Char.ofNat (c.toNat + 32) else c

def asciiUpper (s : String) : String :=
  { data := s.data.map asciiUpperChar }

/-- The lookup `EmailRouterDestinationType[s.upper()]` (line 721): the enum has the
single member `DIRECT_PROCESSING`. -/
def parseDestinationType (s : String) : Option DestinationType :=
  if asciiUpper s = "DIRECT_PROCESSING" then some DestinationType.DIRECT_PROCESSING else none

/-- Processing of one target entry (lines 509-754): required-elements check,
positive target priority, non-empty rule list, the rule loop, the accumulated
rule-errors abort, destination validation, construction of the target config
(one destination, hard-coded sequence 10) and insertion into the datastore. -/
def processTargetEntry (env : Env) (e : TargetEntry) (ds : RulesDatastore) :
    Except RouterError RulesDatastore :=
  match e.match_rules, e.destination, e.target_priority with
  | some mrules, some dest, some tp =>
    if tp ≤ 0 then
      .error (.dbInitError ("Cannot proceed as target " ++ e.tc_name ++
        " contains an invalid target_priority value; Must be a positive number"))
    else if mrules.length < 1 then
      .error (.dbInitError "Provided match_rules structure contains no actual rules.  Aborting")
    else
      match parseRules env 1 mrules ([], []) with
      | .error err => .error err
      | .ok st =>
        if st.1.length > 0 then
          .error (.dbInitError (ruleErrorsMessage st.1))
        else if dest.length = 0 then
          .error (.dbInitError ("destination for target config " ++ e.tc_name ++
            " is null - check JSON"))
        else
          match parseDestinationType dest with
          | none =>
            .error (.dbInitError ("destination for target config " ++ e.tc_name ++
              " is not valid; Value provided = " ++ dest))
          | some dtype =>
            let duri := normField e.destination_uri
            let dcfg : DestinationConfig :=
              { destination_type := dtype, destination_sequence := 10,
                destination_uri := duri }
            add_target_routing_config ds
              { target_name := e.tc_name, target_priority := tp,
                router_rules := setify st.2, destinations := [dcfg] }
  | _, _, _ =>
    .error (.dbInitError ("Aborting as instance data did not contain required element(s): " ++
      joinComma (requiredElementsMissing e)))

/-- The double loop over `router_rules` (lines 506-754), flattened to the
sequence of `(tc_name, tc_router_rules)` items it visits. -/
def processAll (env : Env) (entries : List TargetEntry) (ds : RulesDatastore) :
    Except RouterError RulesDatastore :=
  match entries with
  | [] => .ok ds
  | e :: rest =>
    match processTargetEntry env e ds with
    | .error err => .error err
    | .ok ds2 => processAll env rest ds2

/-- The UTC-normalization step (lines 457-470): `pytz.localize` on a naive
datetime attaches the local offset (and raises `ValueError` on an aware one,
whereupon `astimezone(timezone('UTC'))` rescales to offset 0). -/
def toUTC (localOffset : Int) (dt : Datetime) : Datetime :=
  match dt.offset with
  | none => { wall := dt.wall, offset := some localOffset }
  | some off => { wall := dt.wall - off, offset := some 0 }

/-- Modelled from the spec (section 4.3 step 3), for comparison with `toUTC`:
"if the literal includes an explicit UTC-offset marker, convert it to UTC; if
the literal has no offset (a naive timestamp), interpret it in the process's
local timezone and then convert to UTC.  Store only the UTC value." -/
def revisionToUTC_spec (localOffset : Int) (dt : Datetime) : Datetime :=
  match dt.offset with
  | none => { wall := dt.wall - localOffset, offset := some 0 }
  | some off => { wall := dt.wall - off, offset := some 0 }

/-- The top-level required-attributes scan (lines 400-408), in source order. -/
def requiredTopLevelMissing (d : ConfigDoc) : List String :=
  (if d.name.isSome then [] else ["name"]) ++
  (if d.revision_number.isSome then [] else ["revision_number"]) ++
  (if d.revision_datetime.isSome then [] else ["revision_datetime"]) ++
  (if d.instance_type.isSome then [] else ["instance_type"]) ++
  (if d.router_rules.isSome then [] else ["router_rules"])

def insertString (s : String) : List String → List String
  | [] => [s]
  | x :: xs => if s ≤ x then s :: x :: xs else x :: insertString s xs

/-- Python `sorted` over the missing-attribute names (line 414). -/
def sortStrings (l : List String) : List String :=
  l.foldr insertString []

/-- The single missing-attributes report (lines 410-416). -/
def topMissingMsg (missing : List String) : String :=
  "Unable to proceed - source JSON missing these required attribute(s): " ++
    joinComma (sortStrings missing) ++ "; Keys are CASE SPECIFIC and should be LOWERCASE"

/-- The lookup `RouterInstanceType[s.upper()]` (line 474). -/
def parseInstanceTypeName (s : String) : Option RouterInstanceType :=
  if asciiUpper s = "BLUE" then some RouterInstanceType.BLUE
  else if asciiUpper s = "GREEN" then some RouterInstanceType.GREEN
  else none

/-- Method loading from JSON (the underscore-named jsonfile method of `EmailRouter`) from the decoded document on
(lines 398-762): top-level required keys, name and revision-number
validation, timestamp parse and UTC normalization, instance-type parse and
match against the process's own type, datastore creation, the non-empty
`router_rules` check, target processing, and finally the activation flag. -/
def load_from_jsonfile (env : Env) (selfType : RouterInstanceType) (json_data : ConfigDoc) :
    Except RouterError RulesDatastore :=
  let missing := requiredTopLevelMissing json_data
  if missing.length > 0 then
    .error (.dbInitError (topMissingMsg missing))
  else
    match json_data.name, json_data.revision_number, json_data.revision_datetime,
      json_data.instance_type, json_data.router_rules with
    | some nm, some rev, some dts, some ity, some rr =>
      if nm.length < 3 then
        .error (.dbInitError "name attribute must be a string of at least 3 chars in length")
      else if rev < 0 then
        .error (.dbInitError "revision_number attribute must be a non-negative integer")
      else
        match env.parseDt dts with
        | none =>
          .error (.dbInitError ("source JSON has invalid revision_datetime parameter " ++ dts))
        | some dt =>
          match parseInstanceTypeName ity with
          | none =>
            .error (.dbInitError ("specified instance type " ++ ity ++
              " is not a valid instance type"))
          | some it =>
            if it ≠ selfType then
              .error (.dbInitError "Specified JSON is for a different router instance type")
            else
              let ds0 : RulesDatastore :=
                { datastore_name := nm, revision_datetime := toUTC env.localOffset dt,
                  revision_number := rev, instance_type := it, activated := false,
                  router_config_by_target := [] }
              if rr.length < 1 then
                .error (.dbInitError
                  "Caller did not provide any target / client entries in JSON data - no rules to parse; Aborting")
              else
                match processAll env rr.flatten ds0 with
                | .error e => .error e
                | .ok ds1 => .ok { ds1 with activated := true }
    | _, _, _, _, _ => .error (.dbInitError (topMissingMsg missing))

/-! ### A concrete environment for witnesses and counterexamples -/

def charsStartWith : List Char → List Char → Bool
  | [], _ => true
  | _ :: _, [] => false
  | a :: as, b :: bs => a == b && charsStartWith as bs

def charsContain (needle : List Char) : List Char → Bool
  | [] => charsStartWith needle []
  | b :: bs => charsStartWith needle (b :: bs) || charsContain needle bs

/-- The test `re.search(pat, text, re.IGNORECASE) is not None` for a metacharacter-free
pattern: case-insensitive substring search. -/
def pyReSearch (pat text : String) : Bool :=
  charsContain (pat.data.map asciiLowerChar) (text.data.map asciiLowerChar)

/-- Concrete environment used by the closed witnesses: substring regex
search; CIDR/IP parsing accepts everything except the marker string "bad";
network membership is plain string equality; the timestamp parser knows the
two literals the demo documents use (one naive, one at offset -180 minutes);
the process-local timezone sits at offset -300 minutes (UTC-5). -/
def demoEnv : Env where
  reSearch := pyReSearch
  ipParse := fun s => if s = "bad" then none else some s
  ipInNet := fun a n => a = n
  parseCIDR := fun s => if s = "bad" then none else some s
  parseDt := fun s =>
    if s = "2019-04-12T07:00:00" then some { wall := 259200, offset := none }
    else if s = "2019-04-12T07:00:00-0300" then some { wall := 259200, offset := some (-180) }
    else none
  localOffset := -300

def demoDest : DestinationConfig :=
  { destination_type := .DIRECT_PROCESSING, destination_sequence := 10,
    destination_uri := some "queue://sales" }

/-- A target whose two rules both fully pass on a message from acme.com. -/
def targetSalesTwoRules : TargetConfig :=
  { target_name := "sales", target_priority := 1,
    router_rules :=
      [ { match_priority := 1, match_pattern := { sender_domain := some "acme" } },
        { match_priority := 2, match_pattern := { sender_domain := some "acme" } } ],
    destinations := [demoDest] }

def dsTwoRules : RulesDatastore :=
  { datastore_name := "demodb", revision_datetime := { wall := 0, offset := some 0 },
    revision_number := 5, instance_type := .BLUE, activated := true,
    router_config_by_target := [targetSalesTwoRules] }

/-- A target whose single rule carries only a `recipient_name` pattern. -/
def targetHelpdesk : TargetConfig :=
  { target_name := "helpdesk", target_priority := 1,
    router_rules :=
      [ { match_priority := 1, match_pattern := { recipient_name := some "sales" } } ],
    destinations := [demoDest] }

def dsRecipientOnly : RulesDatastore :=
  { datastore_name := "demodb", revision_datetime := { wall := 0, offset := some 0 },
    revision_number := 5, instance_type := .BLUE, activated := true,
    router_config_by_target := [targetHelpdesk] }

/-- Two targets: "alpha" (priority 1, two passing rules) and "beta"
(priority 2, one passing rule). -/
def targetAlpha : TargetConfig :=
  { target_name := "alpha", target_priority := 1,
    router_rules :=
      [ { match_priority := 1, match_pattern := { sender_domain := some "acme" } },
        { match_priority := 2, match_pattern := { sender_name := some "bob" } } ],
    destinations := [demoDest] }

def targetBeta : TargetConfig :=
  { target_name := "beta", target_priority := 2,
    router_rules :=
      [ { match_priority := 1, match_pattern := { sender_domain := some "acme" } } ],
    destinations := [demoDest] }

def dsAlphaBeta : RulesDatastore :=
  { datastore_name := "demodb", revision_datetime := { wall := 0, offset := some 0 },
    revision_number := 5, instance_type := .BLUE, activated := true,
    router_config_by_target := [targetAlpha, targetBeta] }

/-- A rule that declares the unimplemented `attachment_included` filter but
fails its `sender_domain` check on the demo message. -/
def targetGamma : TargetConfig :=
  { target_name := "gamma", target_priority := 1,
    router_rules :=
      [ { match_priority := 1,
          match_pattern := { sender_domain := some "nomatch",
                             attachment_included := some true } } ],
    destinations := [demoDest] }

def dsGamma : RulesDatastore :=
  { datastore_name := "demodb", revision_datetime := { wall := 0, offset := some 0 },
    revision_number := 5, instance_type := .BLUE, activated := true,
    router_config_by_target := [targetGamma] }

def isMatchNotFound : Except RouterError MatchResultCollection → Bool
  | .error (.matchNotFound _) => true
  | _ => false

def matchedNames (r : Except RouterError MatchResultCollection) :
    Except RouterError (List String) :=
  r.map (fun c => c.matched_target_results.map MatchResult.matched_target_name)

/-! ### Demo configuration documents for the loader claims -/

def docTopLevel : ConfigDoc :=
  { name := some "demodb", revision_number := some 5,
    revision_datetime := some "2019-04-12T07:00:00", instance_type := some "blue",
    router_rules := some [] }

/-- Two distinct rules sharing match_priority 1 under one target. -/
def docEqualPrioDistinct : ConfigDoc :=
  { docTopLevel with router_rules := some [
      [ { tc_name := "sales",
            match_rules := some
              [ { match_priority := some 1, sender_domain := some "acme" },
                { match_priority := some 1, sender_domain := some "zzz" } ],
            destination := some "direct_processing",
            destination_uri := some "queue://sales",
            target_priority := some 1 } ] ] }

/-- Two byte-identical rules sharing match_priority 1 under one target. -/
def docEqualPrioIdentical : ConfigDoc :=
  { docTopLevel with router_rules := some [
      [ { tc_name := "sales",
            match_rules := some
              [ { match_priority := some 1, sender_domain := some "acme" },
                { match_priority := some 1, sender_domain := some "acme" } ],
            destination := some "direct_processing",
            destination_uri := some "queue://sales",
            target_priority := some 1 } ] ] }

/-- A well-formed document with one target and one valid rule. -/
def docGood : ConfigDoc :=
  { docTopLevel with router_rules := some [
      [ { tc_name := "sales",
            match_rules := some
              [ { match_priority := some 1, sender_domain := some "acme" } ],
            destination := some "direct_processing",
            destination_uri := some "queue://sales",
            target_priority := some 1 } ] ] }

/-- Document whose `router_rules` is a non-empty list whose only member is an empty map. -/
def docEmptyMap : ConfigDoc :=
  { docTopLevel with router_rules := some [[]] }

/-- Missing only `revision_number`. -/
def docNoRevision : ConfigDoc :=
  { docTopLevel with revision_number := none }

/-- A rule whose whitelist has two bad entries among good ones. -/
def docBadWhitelist : ConfigDoc :=
  { docTopLevel with router_rules := some [
      [ { tc_name := "sales",
            match_rules := some
              [ { match_priority := some 1, sender_domain := some "acme",
                  sender_ip_whitelist := some "bad,10.0.0.0/24,bad,10.1.0.0/24" } ],
            destination := some "direct_processing",
            destination_uri := some "queue://sales",
            target_priority := some 1 } ] ] }

def loadedTargets (r : Except RouterError RulesDatastore) :
    Except RouterError (List TargetConfig) :=
  r.map RulesDatastore.router_config_by_target

/-- The datastore `docGood` loads to. -/
def dsGoodLoaded : RulesDatastore :=
  { datastore_name := "demodb",
    revision_datetime := { wall := 259200, offset := some (-300) },
    revision_number := 5, instance_type := .BLUE, activated := true,
    router_config_by_target :=
      [ { target_name := "sales", target_priority := 1,
          router_rules :=
            [ { match_priority := 1, match_pattern := { sender_domain := some "acme" } } ],
          destinations := [demoDest] } ] }

/-- An empty, not yet activated datastore. -/
def dsEmpty : RulesDatastore :=
  { datastore_name := "demodb", revision_datetime := { wall := 0, offset := some 0 },
    revision_number := 5, instance_type := .BLUE, activated := false,
    router_config_by_target := [] }

/-- A rule whose whitelist consists of a single unparsable entry. -/
def rjOnlyBadWl : RuleJson :=
  { match_priority := some 1, sender_domain := some "acme",
    sender_ip_whitelist := some "bad" }

/-- A target entry carrying `rjOnlyBadWl`. -/
def entryBadWl : TargetEntry :=
  { tc_name := "sales", match_rules := some [rjOnlyBadWl],
    destination := some "direct_processing",
    destination_uri := some "queue://sales", target_priority := some 1 }

/-- The parse state `entryBadWl`'s rule loop ends with: two errors under
priority 1 plus the closing skip message, and no created rule. -/
def stBadWl : ErrLog × List Rule :=
  ([(1, [whitelistEntryErr 1 "bad", emptyWhitelistErr "bad",
    "Skipping creation of rule match pattern for priority " ++ toString (1 : Rat) ++
      " with error count of " ++ toString 2])], [])

/-- A rule that passes its sender-domain check on the demo message but
declares the unimplemented `attachment_included` filter. -/
def ruleAttach : Rule :=
  { match_priority := 1,
    match_pattern := { sender_domain := some "acme", attachment_included := some true } }

/-! ### Helper lemmas -/

theorem errlogLookup_logErrorAt_self (p : Rat) (m : String) (el : ErrLog) :
    errlogLookup p (logErrorAt p m el) = some (((errlogLookup p el).getD []) ++ [m]) := by
  induction el with
  | nil => simp [logErrorAt, errlogLookup]
  | cons q rest ih =>
    obtain ⟨q, ms⟩ := q
    by_cases h : p = q
    · simp [logErrorAt, errlogLookup, h]
    · simp [logErrorAt, errlogLookup, h, ih]

theorem errlogLookup_logErrorAt_ne (p q : Rat) (m : String) (el : ErrLog) (h : p ≠ q) :
    errlogLookup p (logErrorAt q m el) = errlogLookup p el := by
  induction el with
  | nil => simp [logErrorAt, errlogLookup, h]
  | cons x rest ih =>
    obtain ⟨r, ms⟩ := x
    by_cases hq : q = r
    · subst hq
      simp [logErrorAt, errlogLookup, h]
    · by_cases hp : p = r
      · simp [logErrorAt, errlogLookup, hq, hp]
      · simp [logErrorAt, errlogLookup, hq, hp, ih]

theorem mem_errlogLookup_logErrorAt (p q : Rat) (m2 : String) (el : ErrLog) (m : String)
    (h : m ∈ (errlogLookup p el).getD []) :
    m ∈ (errlogLookup p (logErrorAt q m2 el)).getD [] := by
  by_cases hpq : p = q
  · subst hpq
    rw [errlogLookup_logErrorAt_self]
    simp only [Option.getD_some, List.mem_append]
    exact Or.inl h
  · rw [errlogLookup_logErrorAt_ne p q m2 el hpq]
    exact h

theorem mem_insertNet_self (n : String) (l : List String) : n ∈ insertNet n l := by
  unfold insertNet
  by_cases h : n ∈ l
  · simp [h]
  · simp [h]

theorem mem_insertNet_mono (n : String) (l : List String) (x : String) (h : x ∈ l) :
    x ∈ insertNet n l := by
  unfold insertNet
  by_cases hn : n ∈ l
  · simp [hn, h]
  · simp [hn]
    exact Or.inl h

theorem parseWhitelistEntries_errs_length (env : Env) (entries : List String) :
    ∀ i errs nets, (parseWhitelistEntries env i entries errs nets).1.length =
      errs.length + entries.countP (fun e => (env.parseCIDR e).isNone) := by
  induction entries with
  | nil => intro i errs nets; simp [parseWhitelistEntries]
  | cons e rest ih =>
    intro i errs nets
    unfold parseWhitelistEntries
    cases h : env.parseCIDR e with
    | none =>
      rw [ih]
      simp [List.countP_cons, h]
      omega
    | some n =>
      rw [ih]
      simp [List.countP_cons, h]

theorem parseWhitelistEntries_nets_mono (env : Env) (entries : List String) :
    ∀ i errs nets x, x ∈ nets → x ∈ (parseWhitelistEntries env i entries errs nets).2 := by
  induction entries with
  | nil => intro i errs nets x hx; simpa [parseWhitelistEntries] using hx
  | cons e rest ih =>
    intro i errs nets x hx
    unfold parseWhitelistEntries
    cases h : env.parseCIDR e with
    | none => exact ih _ _ _ _ hx
    | some n => exact ih _ _ _ _ (mem_insertNet_mono n nets x hx)

theorem parseWhitelistEntries_mem_nets (env : Env) (entries : List String) :
    ∀ i errs nets e n, e ∈ entries → env.parseCIDR e = some n →
      n ∈ (parseWhitelistEntries env i entries errs nets).2 := by
  induction entries with
  | nil => intro i errs nets e n he; exact absurd he (List.not_mem_nil e)
  | cons a rest ih =>
    intro i errs nets e n he hp
    unfold parseWhitelistEntries
    rcases List.mem_cons.mp he with rfl | hrest
    · rw [hp]
      exact parseWhitelistEntries_nets_mono env rest _ _ _ n (mem_insertNet_self n nets)
    · cases h : env.parseCIDR a with
      | none => exact ih _ _ _ _ _ hrest hp
      | some m => exact ih _ _ _ _ _ hrest hp

theorem parseWhitelistEntries_nets_allFail (env : Env) (entries : List String)
    (hall : ∀ e ∈ entries, env.parseCIDR e = none) :
    ∀ i errs nets, (parseWhitelistEntries env i entries errs nets).2 = nets := by
  induction entries with
  | nil => intro i errs nets; simp [parseWhitelistEntries]
  | cons e rest ih =>
    intro i errs nets
    unfold parseWhitelistEntries
    rw [hall e (List.mem_cons_self e rest)]
    exact ih (fun x hx => hall x (List.mem_cons_of_mem e hx)) _ _ _

theorem findConflict_eq_none_iff (tc : TargetConfig) (l : List TargetConfig) :
    findConflict tc l = none ↔
      ∀ t ∈ l, tc.target_name ≠ t.target_name ∧ tc.target_priority ≠ t.target_priority := by
  induction l with
  | nil => simp [findConflict]
  | cons t rest ih =>
    by_cases hn : tc.target_name = t.target_name
    · simp [findConflict, hn]
    · by_cases hp : tc.target_priority = t.target_priority
      · simp [findConflict, hn, hp]
      · simp [findConflict, hn, hp, ih]

theorem findConflict_some_dbInit (tc : TargetConfig) (l : List TargetConfig) (e : RouterError)
    (h : findConflict tc l = some e) : ∃ m, e = .dbInitError m := by
  induction l with
  | nil => simp [findConflict] at h
  | cons t rest ih =>
    by_cases hn : tc.target_name = t.target_name
    · simp [findConflict, hn] at h
      exact ⟨_, h.symm⟩
    · by_cases hp : tc.target_priority = t.target_priority
      · simp [findConflict, hn, hp] at h
        exact ⟨_, h.symm⟩
      · simp [findConflict, hn, hp] at h
        exact ih h

theorem add_target_ok_shape (ds : RulesDatastore) (tc : TargetConfig) (ds2 : RulesDatastore)
    (h : add_target_routing_config ds tc = .ok ds2) :
    ds2 = { ds with router_config_by_target := ds.router_config_by_target ++ [tc] } ∧
    tc ∉ ds.router_config_by_target ∧
    ∀ t ∈ ds.router_config_by_target,
      tc.target_name ≠ t.target_name ∧ tc.target_priority ≠ t.target_priority := by
  unfold add_target_routing_config at h
  by_cases hmem : tc ∈ ds.router_config_by_target
  · simp [hmem] at h
  · simp only [hmem, if_false, if_neg] at h
    cases hc : findConflict tc ds.router_config_by_target with
    | some e => rw [hc] at h; simp at h
    | none =>
      rw [hc] at h
      simp only [Except.ok.injEq] at h
      exact ⟨h.symm, hmem, (findConflict_eq_none_iff tc _).mp hc⟩

theorem mem_insertTarget (x t : TargetConfig) (l : List TargetConfig) :
    x ∈ insertTarget t l ↔ x = t ∨ x ∈ l := by
  induction l with
  | nil => simp [insertTarget]
  | cons a rest ih =>
    unfold insertTarget
    by_cases h : t.target_priority < a.target_priority
    · simp [h]
    · simp [h, ih]
      tauto

theorem mem_sortTargets (x : TargetConfig) (l : List TargetConfig) :
    x ∈ sortTargets l ↔ x ∈ l := by
  induction l with
  | nil => simp [sortTargets]
  | cons a rest ih =>
    show x ∈ insertTarget a (sortTargets rest) ↔ _
    rw [mem_insertTarget]
    simp [ih]

theorem pairwise_le_insertTarget (t : TargetConfig) (l : List TargetConfig)
    (h : l.Pairwise (fun a b => a.target_priority ≤ b.target_priority)) :
    (insertTarget t l).Pairwise (fun a b => a.target_priority ≤ b.target_priority) := by
  induction l with
  | nil => simp [insertTarget]
  | cons a rest ih =>
    unfold insertTarget
    by_cases hlt : t.target_priority < a.target_priority
    · simp only [hlt, if_true]
      refine List.Pairwise.cons ?_ h
      intro b hb
      rcases List.mem_cons.mp hb with rfl | hbr
      · exact le_of_lt hlt
      · exact le_trans (le_of_lt hlt) ((List.pairwise_cons.mp h).1 b hbr)
    · simp only [hlt, if_false]
      refine List.Pairwise.cons ?_ (ih (List.pairwise_cons.mp h).2)
      intro b hb
      rcases (mem_insertTarget b t rest).mp hb with rfl | hbr
      · exact le_of_not_lt hlt
      · exact (List.pairwise_cons.mp h).1 b hbr

theorem pairwise_le_sortTargets (l : List TargetConfig) :
    (sortTargets l).Pairwise (fun a b => a.target_priority ≤ b.target_priority) := by
  induction l with
  | nil => simp [sortTargets]
  | cons a rest ih => exact pairwise_le_insertTarget a (sortTargets rest) ih

theorem pairwise_replicate_refl {α : Type} (R : α → α → Prop) (a : α) (hR : R a a) :
    ∀ n, (List.replicate n a).Pairwise R := by
  intro n
  induction n with
  | zero => simp
  | succ k ih =>
    rw [List.replicate_succ]
    refine List.Pairwise.cons ?_ ih
    intro b hb
    rw [List.eq_of_mem_replicate hb]
    exact hR

theorem mem_evalTargets_matched (env : Env) (A : List String) (f ip : String)
    (ts : List TargetConfig) :
    ∀ x ∈ (evalTargets env A f ip ts).2.1, x ∈ ts := by
  induction ts with
  | nil => intro x hx; simp [evalTargets] at hx
  | cons t rest ih =>
    intro x hx
    simp only [evalTargets] at hx
    cases hfatal : (evalRulesList env t A f ip (sortRules t.router_rules)).2.2 with
    | some e =>
      rw [hfatal] at hx
      simp only at hx
      rw [List.eq_of_mem_replicate hx]
      exact List.mem_cons_self t rest
    | none =>
      rw [hfatal] at hx
      simp only [List.mem_append] at hx
      rcases hx with hx | hx
      · rw [List.eq_of_mem_replicate hx]
        exact List.mem_cons_self t rest
      · exact List.mem_cons_of_mem t (ih x hx)

theorem pairwise_evalTargets_matched (env : Env) (A : List String) (f ip : String)
    (ts : List TargetConfig)
    (h : ts.Pairwise (fun a b => a.target_priority ≤ b.target_priority)) :
    ((evalTargets env A f ip ts).2.1).Pairwise
      (fun a b => a.target_priority ≤ b.target_priority) := by
  induction ts with
  | nil => simp [evalTargets]
  | cons t rest ih =>
    simp only [evalTargets]
    cases hfatal : (evalRulesList env t A f ip (sortRules t.router_rules)).2.2 with
    | some e =>
      exact pairwise_replicate_refl _ t (le_refl t.target_priority) _
    | none =>
      simp only
      rw [List.pairwise_append]
      refine ⟨pairwise_replicate_refl _ t (le_refl t.target_priority) _,
        ih (List.pairwise_cons.mp h).2, ?_⟩
      intro a ha b hb
      rw [List.eq_of_mem_replicate ha]
      exact (List.pairwise_cons.mp h).1 b
        (mem_evalTargets_matched env A f ip rest b hb)

theorem evalRule_matched_no_unimpl (env : Env) (tname : String) (rule : Rule)
    (A : List String) (f ip : String)
    (h : (evalRule env tname rule A f ip).2 = .matched) :
    rule.match_pattern.attachment_included = none ∧
    rule.match_pattern.body_size_minimum = none ∧
    rule.match_pattern.body_size_maximum = none := by
  simp only [evalRule] at h
  repeat' split at h
  all_goals simp_all [Option.not_isSome_iff_eq_none]

theorem processTargetEntry_ok_shape (env : Env) (e : TargetEntry) (ds ds2 : RulesDatastore)
    (h : processTargetEntry env e ds = .ok ds2) :
    ∃ tc, ds2 = { ds with router_config_by_target := ds.router_config_by_target ++ [tc] } := by
  simp only [processTargetEntry] at h
  repeat' split at h
  all_goals first
    | simp at h
    | exact ⟨_, (add_target_ok_shape ds _ ds2 h).1⟩

theorem processAll_ok_shape (env : Env) (entries : List TargetEntry) :
    ∀ ds ds2, processAll env entries ds = .ok ds2 →
      ds2.datastore_name = ds.datastore_name ∧
      ds2.revision_datetime = ds.revision_datetime ∧
      ds2.revision_number = ds.revision_number ∧
      ds2.instance_type = ds.instance_type ∧
      ds2.activated = ds.activated ∧
      ds2.router_config_by_target.length =
        ds.router_config_by_target.length + entries.length := by
  induction entries with
  | nil =>
    intro ds ds2 h
    simp only [processAll] at h
    cases h
    simp
  | cons e rest ih =>
    intro ds ds2 h
    simp only [processAll] at h
    cases hpe : processTargetEntry env e ds with
    | error err => rw [hpe] at h; simp at h
    | ok dsm =>
      rw [hpe] at h
      obtain ⟨tc, rfl⟩ := processTargetEntry_ok_shape env e ds dsm hpe
      obtain ⟨h1, h2, h3, h4, h5, h6⟩ := ih _ _ h
      refine ⟨h1, h2, h3, h4, h5, ?_⟩
      rw [h6]
      simp [List.length_append]
      omega

theorem toUTC_vs_spec (L : Int) (dt : Datetime) :
    (toUTC L dt).instant = (revisionToUTC_spec L dt).instant ∧
    (∀ off, dt.offset = some off → toUTC L dt = revisionToUTC_spec L dt) ∧
    (dt.offset = none → toUTC L dt = { wall := dt.wall, offset := some L }) := by
  cases hoff : dt.offset with
  | none => simp [toUTC, revisionToUTC_spec, Datetime.instant, hoff]
  | some off => simp [toUTC, revisionToUTC_spec, Datetime.instant, hoff]

/-! ### Claim theorems -/

/-- C1: the claim states that once one rule of a target fully passes, the
remaining rules of that target are not evaluated and the target appears at
most once in `matched_target_results`.  Evaluating the embedded
`match_inbound_email` on `dsTwoRules` - whose single target "sales" carries
two rules that both fully pass on the request - shows the engine keeps
evaluating rules after the first pass and appends one result per passing
rule: the target appears twice. -/
theorem C1_first_match_wins_eval :
    matchedNames (match_inbound_email demoEnv dsTwoRules ["x@y.com"] "bob@acme.com" "10.0.0.1")
      = .ok ["sales", "sales"] := by rfl

/-- C2: the claim states a rule passes only if every present field of its
pattern matches, and in particular that a set `recipient_name` with no
matching recipient (e.g. an empty recipient list) prevents the rule from
passing.  Evaluating the embedded `match_inbound_email` on
`dsRecipientOnly` - whose single rule carries only a `recipient_name`
pattern - against an empty recipient list shows the rule nevertheless passes
and its target is matched: the recipient-check failure has no effect on the
rule outcome. -/
theorem C2_recipient_and_semantics_eval :
    targetHelpdesk.router_rules.map (fun r => r.match_pattern.recipient_name)
      = [some "sales"] ∧
    matchedNames (match_inbound_email demoEnv dsRecipientOnly [] "bob@acme.com" "1.2.3.4")
      = .ok ["helpdesk"] :=
  ⟨rfl, rfl⟩

/-- C3: the claim states a configuration document with two rules of equal
`match_priority` under one target fails to load with an
`InitializationError`.  Evaluating the embedded loader shows it accepts
both documents: two distinct rules at priority 1 both load (and would make
the Python `sorted` call raise `NotImplementedError` only later, during
matching), and two identical rules at priority 1 are silently collapsed to
one by the frozenset - the load activates in both cases. -/
theorem C3_equal_priority_load_eval :
    (loadedTargets (load_from_jsonfile demoEnv .BLUE docEqualPrioDistinct)).map
      (fun ts => ts.map (fun t => t.router_rules.map Rule.match_priority)) = .ok [[1, 1]] ∧
    (load_from_jsonfile demoEnv .BLUE docEqualPrioDistinct).map RulesDatastore.activated
      = .ok true ∧
    (loadedTargets (load_from_jsonfile demoEnv .BLUE docEqualPrioIdentical)).map
      (fun ts => ts.map (fun t => t.router_rules.length)) = .ok [1] ∧
    (load_from_jsonfile demoEnv .BLUE docEqualPrioIdentical).map RulesDatastore.activated
      = .ok true :=
  ⟨rfl, rfl, rfl, rfl⟩

/-- C4: `add_target_routing_config` fails with the duplicate-target error on
a structurally identical target, fails with the
database-initialization (configuration-conflict) error when the name or
priority of the new target collides with a different existing target, never
produces a datastore in a failure case (the error carries no state; the
target collection of the input is untouched), and on success extends the
target collection by exactly the new target, growing membership by one. -/
theorem C4_addTarget_contract (ds : RulesDatastore) (tc : TargetConfig) :
    (tc ∈ ds.router_config_by_target →
      add_target_routing_config ds tc =
        .error (.duplicateTarget ("Duplicate target config entry (" ++ tc.target_name ++
          ") found in source data - skipping this entry"))) ∧
    (tc ∉ ds.router_config_by_target →
      (∃ t ∈ ds.router_config_by_target,
        tc.target_name = t.target_name ∨ tc.target_priority = t.target_priority) →
      ∃ m, add_target_routing_config ds tc = .error (.dbInitError m)) ∧
    ((tc ∉ ds.router_config_by_target ∧
      ∀ t ∈ ds.router_config_by_target,
        tc.target_name ≠ t.target_name ∧ tc.target_priority ≠ t.target_priority) →
      add_target_routing_config ds tc =
        .ok { ds with router_config_by_target := ds.router_config_by_target ++ [tc] }) ∧
    (∀ ds2, add_target_routing_config ds tc = .ok ds2 →
      ds2.router_config_by_target.length = ds.router_config_by_target.length + 1 ∧
      tc ∉ ds.router_config_by_target) := by
  refine ⟨?_, ?_, ?_, ?_⟩
  · intro hmem
    unfold add_target_routing_config
    rw [if_pos hmem]
  · intro hmem hconf
    cases hc : findConflict tc ds.router_config_by_target with
    | none =>
      exfalso
      obtain ⟨t, ht, hor⟩ := hconf
      obtain ⟨h1, h2⟩ := (findConflict_eq_none_iff tc _).mp hc t ht
      rcases hor with h | h
      · exact h1 h
      · exact h2 h
    | some e =>
      obtain ⟨m, rfl⟩ := findConflict_some_dbInit tc _ e hc
      refine ⟨m, ?_⟩
      unfold add_target_routing_config
      rw [if_neg hmem, hc]
  · rintro ⟨hmem, hall⟩
    unfold add_target_routing_config
    rw [if_neg hmem, (findConflict_eq_none_iff tc _).mpr hall]
  · intro ds2 h
    obtain ⟨rfl, hmem, _⟩ := add_target_ok_shape ds tc ds2 h
    exact ⟨by simp, hmem⟩

/-- Witness for C4 at concrete inputs: a structurally identical re-add of
"alpha" is a duplicate error; a renamed copy of "alpha" (same priority 1)
is a configuration conflict; adding to the empty datastore succeeds and
appends the target. -/
theorem C4_addTarget_contract_witness :
    (add_target_routing_config dsAlphaBeta targetAlpha =
      .error (.duplicateTarget ("Duplicate target config entry (" ++ targetAlpha.target_name ++
        ") found in source data - skipping this entry"))) ∧
    (∃ m, add_target_routing_config dsAlphaBeta { targetAlpha with target_name := "other" } =
      .error (.dbInitError m)) ∧
    (add_target_routing_config dsEmpty targetBeta =
      .ok { dsEmpty with
        router_config_by_target := dsEmpty.router_config_by_target ++ [targetBeta] }) :=
  ⟨(C4_addTarget_contract dsAlphaBeta targetAlpha).1 (by decide),
   (C4_addTarget_contract dsAlphaBeta { targetAlpha with target_name := "other" }).2.1
     (by decide) ⟨targetAlpha, by decide, Or.inr rfl⟩,
   (C4_addTarget_contract dsEmpty targetBeta).2.2.1 ⟨by decide, by decide⟩⟩

theorem mem_errlogLookup_logErrorsAt_mono (p : Rat) (msgs : List String) :
    ∀ (el : ErrLog) (m : String), m ∈ (errlogLookup p el).getD [] →
      m ∈ (errlogLookup p (logErrorsAt p msgs el)).getD [] := by
  induction msgs with
  | nil => intro el m h; simpa [logErrorsAt] using h
  | cons m0 rest ih =>
    intro el m h
    show m ∈ (errlogLookup p (logErrorsAt p rest (logErrorAt p m0 el))).getD []
    exact ih _ m (mem_errlogLookup_logErrorAt p p m0 el m h)

theorem mem_errlogLookup_logErrorsAt_self (p : Rat) (msgs : List String) :
    ∀ (el : ErrLog) (m : String), m ∈ msgs →
      m ∈ (errlogLookup p (logErrorsAt p msgs el)).getD [] := by
  induction msgs with
  | nil => intro el m h; exact absurd h (List.not_mem_nil m)
  | cons m0 rest ih =>
    intro el m h
    show m ∈ (errlogLookup p (logErrorsAt p rest (logErrorAt p m0 el))).getD []
    rcases List.mem_cons.mp h with rfl | hr
    · refine mem_errlogLookup_logErrorsAt_mono p rest _ m ?_
      rw [errlogLookup_logErrorAt_self]
      simp
    · exact ih _ m hr

theorem exists_of_mem_errlogLookup_getD (p : Rat) (el : ErrLog) (m : String)
    (h : m ∈ (errlogLookup p el).getD []) :
    ∃ msgs, errlogLookup p el = some msgs ∧ m ∈ msgs := by
  cases hl : errlogLookup p el with
  | none => rw [hl] at h; simp at h
  | some msgs => rw [hl] at h; exact ⟨msgs, rfl, by simpa using h⟩

/-- C5: the whitelist value is split on commas and each entry parsed as a
CIDR network; every entry that fails to parse contributes exactly one error
while parsing continues through the remaining entries (the error count is
the exact number of failing entries and every successfully parsed entry
still reaches the network set); an empty resulting network set is itself
recorded as an error under the rule's `match_priority`; and a target whose
rule loop ends with a non-empty error log makes `processTargetEntry` return
the single accumulated `InitializationError` built from the whole log - an
error result carries no datastore, so no partial rule set is committed. -/
theorem C5_whitelist_error_accumulation :
    (∀ (env : Env) (i : Nat) (entries errs nets : List String),
      (parseWhitelistEntries env i entries errs nets).1.length =
        errs.length + entries.countP (fun e => (env.parseCIDR e).isNone)) ∧
    (∀ (env : Env) (i : Nat) (entries errs nets : List String) (e n : String),
      e ∈ entries → env.parseCIDR e = some n →
      n ∈ (parseWhitelistEntries env i entries errs nets).2) ∧
    (∀ (env : Env) (idx : Nat) (rj : RuleJson) (st : ErrLog × List Rule) (p : Rat)
        (csv : String),
      rj.match_priority = some p →
      normField rj.sender_ip_whitelist = some csv →
      (∀ e ∈ pySplit ',' csv, env.parseCIDR e = none) →
      ∃ st2, parseRule env idx rj st = .ok st2 ∧
        ∃ msgs, errlogLookup p st2.1 = some msgs ∧ emptyWhitelistErr csv ∈ msgs) ∧
    (∀ (env : Env) (e : TargetEntry) (ds : RulesDatastore) (mrules : List RuleJson)
        (dest : String) (tp : Rat) (st : ErrLog × List Rule),
      e.match_rules = some mrules → e.destination = some dest → e.target_priority = some tp →
      ¬ tp ≤ 0 → mrules ≠ [] →
      parseRules env 1 mrules ([], []) = .ok st → st.1 ≠ [] →
      processTargetEntry env e ds = .error (.dbInitError (ruleErrorsMessage st.1))) := by
  refine ⟨?_, ?_, ?_, ?_⟩
  · exact fun env i entries errs nets => parseWhitelistEntries_errs_length env entries i errs nets
  · exact fun env i entries errs nets e n he hp =>
      parseWhitelistEntries_mem_nets env entries i errs nets e n he hp
  · intro env idx rj st p csv hp hcsv hall
    have hnets : (parseWhitelistEntries env 1 (pySplit ',' csv) [] []).2 = [] :=
      parseWhitelistEntries_nets_allFail env _ hall 1 [] []
    have hv : emptyWhitelistErr csv ∈ (ruleValidationErrors env rj).1 := by
      simp only [ruleValidationErrors, hcsv, hnets]
      simp
    have hmem : emptyWhitelistErr csv ∈
        (errlogLookup p (logErrorsAt p (ruleValidationErrors env rj).1 st.1)).getD [] :=
      mem_errlogLookup_logErrorsAt_self p _ st.1 _ hv
    have hcnt : 0 < ((errlogLookup p (logErrorsAt p (ruleValidationErrors env rj).1 st.1)).getD []).length :=
      List.length_pos.mpr (fun hnil => by rw [hnil] at hmem; simp at hmem)
    have hstep : parseRule env idx rj st =
        .ok (logErrorAt p ("Skipping creation of rule match pattern for priority " ++ toString p ++
          " with error count of " ++ toString
            ((errlogLookup p (logErrorsAt p (ruleValidationErrors env rj).1 st.1)).getD []).length)
          (logErrorsAt p (ruleValidationErrors env rj).1 st.1), st.2) := by
      simp only [parseRule, hp]
      rw [if_pos hcnt]
    exact ⟨_, hstep, exists_of_mem_errlogLookup_getD p _ _
      (mem_errlogLookup_logErrorAt p p _ _ _ hmem)⟩
  · intro env e ds mrules dest tp st hmr hdest htp h0 hne hpr hne2
    simp only [processTargetEntry, hmr, hdest, htp, hpr]
    rw [if_neg h0, if_neg (by simpa using hne), if_pos (List.length_pos.mpr hne2)]

/-- Witness for C5: on the four-entry whitelist
"bad,10.0.0.0/24,bad,10.1.0.0/24" exactly the two failing entries produce
errors while the good entry after a failure is still parsed; a rule whose
whitelist is the single bad entry "bad" records the empty-whitelist error
under priority 1; and `entryBadWl` fails as one accumulated
`InitializationError`. -/
theorem C5_whitelist_error_accumulation_witness :
    ((parseWhitelistEntries demoEnv 1 ["bad", "10.0.0.0/24", "bad", "10.1.0.0/24"] [] []).1.length
      = 2) ∧
    ("10.1.0.0/24" ∈
      (parseWhitelistEntries demoEnv 1 ["bad", "10.0.0.0/24", "bad", "10.1.0.0/24"] [] []).2) ∧
    (∃ st2, parseRule demoEnv 1 rjOnlyBadWl ([], []) = .ok st2 ∧
      ∃ msgs, errlogLookup 1 st2.1 = some msgs ∧ emptyWhitelistErr "bad" ∈ msgs) ∧
    (processTargetEntry demoEnv entryBadWl dsEmpty =
      .error (.dbInitError (ruleErrorsMessage stBadWl.1))) :=
  ⟨(C5_whitelist_error_accumulation.1 demoEnv 1 ["bad", "10.0.0.0/24", "bad", "10.1.0.0/24"]
      [] []).trans (by rfl),
   C5_whitelist_error_accumulation.2.1 demoEnv 1 ["bad", "10.0.0.0/24", "bad", "10.1.0.0/24"]
      [] [] "10.1.0.0/24" "10.1.0.0/24" (by decide) (by rfl),
   C5_whitelist_error_accumulation.2.2.1 demoEnv 1 rjOnlyBadWl ([], []) 1 "bad" rfl rfl
      (by decide),
   C5_whitelist_error_accumulation.2.2.2 demoEnv entryBadWl dsEmpty [rjOnlyBadWl]
      "direct_processing" 1 stBadWl rfl rfl rfl (by norm_num) (by decide) (by rfl)
      (by decide)⟩

/-- C6: the top-level required-keys check collects exactly the absent keys
among `name`, `revision_number`, `revision_datetime`, `instance_type`,
`router_rules`; whenever at least one is missing the load fails with the
single `InitializationError` whose report is built from the whole (sorted)
missing list; in particular a document lacking `revision_number` has
`revision_number` in that list. -/
theorem C6_top_level_required (env : Env) (st : RouterInstanceType) (d : ConfigDoc) :
    (∀ k, k ∈ requiredTopLevelMissing d ↔
      ((k = "name" ∧ d.name = none) ∨
       (k = "revision_number" ∧ d.revision_number = none) ∨
       (k = "revision_datetime" ∧ d.revision_datetime = none) ∨
       (k = "instance_type" ∧ d.instance_type = none) ∨
       (k = "router_rules" ∧ d.router_rules = none))) ∧
    (requiredTopLevelMissing d ≠ [] →
      load_from_jsonfile env st d =
        .error (.dbInitError (topMissingMsg (requiredTopLevelMissing d)))) ∧
    (d.revision_number = none → "revision_number" ∈ requiredTopLevelMissing d) := by
  have h1 : ∀ k, k ∈ requiredTopLevelMissing d ↔
      ((k = "name" ∧ d.name = none) ∨
       (k = "revision_number" ∧ d.revision_number = none) ∨
       (k = "revision_datetime" ∧ d.revision_datetime = none) ∨
       (k = "instance_type" ∧ d.instance_type = none) ∨
       (k = "router_rules" ∧ d.router_rules = none)) := by
    intro k
    unfold requiredTopLevelMissing
    cases hn : d.name <;> cases hr : d.revision_number <;> cases hd : d.revision_datetime <;>
      cases hi : d.instance_type <;> cases hrr : d.router_rules <;> simp
  refine ⟨h1, ?_, ?_⟩
  · intro hne
    simp only [load_from_jsonfile]
    rw [if_pos (List.length_pos.mpr hne)]
  · intro hrev
    exact (h1 "revision_number").mpr (Or.inr (Or.inl ⟨rfl, hrev⟩))

/-- Witness for C6 at the concrete document missing only `revision_number`:
the load fails with the missing-attributes report and `revision_number` is
among the collected missing keys. -/
theorem C6_top_level_required_witness :
    (load_from_jsonfile demoEnv .BLUE docNoRevision =
      .error (.dbInitError (topMissingMsg (requiredTopLevelMissing docNoRevision)))) ∧
    "revision_number" ∈ requiredTopLevelMissing docNoRevision ∧
    requiredTopLevelMissing docNoRevision = ["revision_number"] :=
  ⟨(C6_top_level_required demoEnv .BLUE docNoRevision).2.1 (by decide),
   (C6_top_level_required demoEnv .BLUE docNoRevision).2.2 rfl, by rfl⟩

/-- C7 counterexample: on `dsAlphaBeta` the request matches target "alpha"
through both of its rules, so the result list carries two `MatchResult`s
for the single matched target "alpha" (plus one for "beta") - not "one
MatchResult per matched target" as the claim states. -/
theorem C7_one_result_per_target_cex :
    matchedNames (match_inbound_email demoEnv dsAlphaBeta ["x@y.com"] "bob@acme.com" "10.0.0.1")
      = .ok ["alpha", "alpha", "beta"] ∧
    ¬ (["alpha", "alpha", "beta"] : List String).Nodup := by
  refine ⟨by rfl, by decide⟩

/-- C7 amended: when the evaluation raises no per-request exception, a run
with zero matched entries fails with `MatchNotFoundError` carrying the full
trace, and a run with at least one matched entry returns one `MatchResult`
per matched entry - i.e. per (target, fully passing rule) pair, a target
contributing one entry for each of its passing rules - in evaluation order
together with the full trace; the matched entries are drawn from the
datastore's targets and their priorities are nondecreasing (targets are
evaluated in ascending target priority).  The pairwise-distinct priority
hypotheses delimit the configurations on which the Python `sorted` calls do
not raise. -/
theorem C7_result_structure (env : Env) (ds : RulesDatastore) (A : List String)
    (f ip : String) (hact : ds.activated = true)
    (_hT : ds.router_config_by_target.Pairwise
      (fun a b => a.target_priority ≠ b.target_priority))
    (_hR : ∀ t ∈ ds.router_config_by_target,
      t.router_rules.Pairwise (fun a b => a.match_priority ≠ b.match_priority)) :
    (matchFatalOf env ds A f ip = none → matchedTargetsOf env ds A f ip = [] →
      match_inbound_email env ds A f ip = .error (.matchNotFound (matchTrace env ds A f ip))) ∧
    (matchFatalOf env ds A f ip = none → matchedTargetsOf env ds A f ip ≠ [] →
      match_inbound_email env ds A f ip =
        .ok { matched_info_log := matchTrace env ds A f ip,
              matched_target_results := (matchedTargetsOf env ds A f ip).map
                (fun t => { matched_target_name := t.target_name,
                            destinations := t.destinations }) }) ∧
    (matchedTargetsOf env ds A f ip).Pairwise
      (fun a b => a.target_priority ≤ b.target_priority) ∧
    (∀ t ∈ matchedTargetsOf env ds A f ip, t ∈ ds.router_config_by_target) := by
  refine ⟨?_, ?_, ?_, ?_⟩
  · intro hf hm
    unfold match_inbound_email
    rw [hact, hf, hm]
    simp
  · intro hf hm
    unfold match_inbound_email
    rw [hact, hf]
    simp only [Bool.true_eq_false, if_false]
    rw [if_neg (by simpa [List.length_eq_zero] using hm)]
  · exact pairwise_evalTargets_matched env A f ip _ (pairwise_le_sortTargets _)
  · intro t ht
    exact (mem_sortTargets t _).mp
      (mem_evalTargets_matched env A f ip (sortTargets ds.router_config_by_target) t ht)

/-- Witness for C7 at `dsAlphaBeta`: the run raises nothing and matches
three entries, so the success equation, the nondecreasing-priority
property and the membership property all hold there. -/
theorem C7_result_structure_witness :
    (match_inbound_email demoEnv dsAlphaBeta ["x@y.com"] "bob@acme.com" "10.0.0.1" =
      .ok { matched_info_log := matchTrace demoEnv dsAlphaBeta ["x@y.com"] "bob@acme.com" "10.0.0.1",
            matched_target_results :=
              (matchedTargetsOf demoEnv dsAlphaBeta ["x@y.com"] "bob@acme.com" "10.0.0.1").map
                (fun t => { matched_target_name := t.target_name,
                            destinations := t.destinations }) }) ∧
    (matchedTargetsOf demoEnv dsAlphaBeta ["x@y.com"] "bob@acme.com" "10.0.0.1").Pairwise
      (fun a b => a.target_priority ≤ b.target_priority) :=
  have h := C7_result_structure demoEnv dsAlphaBeta ["x@y.com"] "bob@acme.com" "10.0.0.1"
    rfl (by decide) (by decide)
  ⟨h.2.1 (by rfl) (by decide), h.2.2.1⟩

/-- C8 counterexample: `dsGamma`'s only rule carries
`attachment_included = some true`, yet evaluating the request - on which
that rule's `sender_domain` check fails first - raises no
not-implemented condition: the whole match ends in the ordinary
`MatchNotFoundError`.  The not-implemented guards sit after the other
checks, so a rule with an unimplemented filter that fails an earlier check
is evaluated without the fatal condition the claim requires. -/
theorem C8_unimpl_fields_cex :
    targetGamma.router_rules.map (fun r => r.match_pattern.attachment_included)
      = [some true] ∧
    isMatchNotFound (match_inbound_email demoEnv dsGamma ["x@y.com"] "bob@acme.com" "10.0.0.1")
      = true :=
  ⟨rfl, rfl⟩

/-- C8 amended: a rule carrying a non-null `attachment_included`,
`body_size_minimum` or `body_size_maximum` can never pass (its evaluation
never yields `matched`, so it never silently matches and is never given
invented behavior), and whenever such a rule's earlier checks all pass -
the from-address splits, the recipient scan raises nothing, the
sender-domain and sender-name checks pass and the ip check passes -
its evaluation fails fatally with the `NotImplementedError` condition. -/
theorem C8_unimpl_fields_fatal (env : Env) (tname : String) (rule : Rule)
    (A : List String) (f ip : String)
    (h : rule.match_pattern.attachment_included.isSome = true ∨
         rule.match_pattern.body_size_minimum.isSome = true ∨
         rule.match_pattern.body_size_maximum.isSome = true) :
    (evalRule env tname rule A f ip).2 ≠ .matched ∧
    (∀ sn sd il, splitAddress f = some (sn, sd) →
      (recipientCheckOf env tname rule A).2 = none →
      (checkRegexField env tname rule.match_pattern.sender_domain sd "sender domain").2 = true →
      (checkRegexField env tname rule.match_pattern.sender_name sn "sender name").2 = true →
      checkIp env tname rule.match_pattern.sender_ip_whitelist ip = .passIp il →
      ∃ m, (evalRule env tname rule A f ip).2 = .fatal (.notImplemented m)) := by
  constructor
  · intro hm
    obtain ⟨hA, hB, hC⟩ := evalRule_matched_no_unimpl env tname rule A f ip hm
    rcases h with h | h | h <;> simp_all
  · intro sn sd il hsa hrec hdom hname hip
    simp only [evalRule, hsa]
    rcases hro : recipientCheckOf env tname rule A with ⟨rl, re⟩
    rw [hro] at hrec
    simp at hrec
    subst hrec
    simp only [hdom, hname, hip]
    simp only [Bool.true_eq_false, if_false]
    by_cases hA : rule.match_pattern.attachment_included.isSome = true
    · rw [if_pos hA]
      exact ⟨_, rfl⟩
    · rw [if_neg hA]
      by_cases hB : rule.match_pattern.body_size_minimum.isSome = true
      · rw [if_pos hB]
        exact ⟨_, rfl⟩
      · rw [if_neg hB]
        by_cases hC : rule.match_pattern.body_size_maximum.isSome = true
        · rw [if_pos hC]
          exact ⟨_, rfl⟩
        · exfalso
          rcases h with h | h | h
          · exact hA h
          · exact hB h
          · exact hC h

/-- Witness for C8 at `ruleAttach` (sender domain passes, attachment filter
declared): the rule does not match and its evaluation ends in the fatal
not-implemented condition. -/
theorem C8_unimpl_fields_fatal_witness :
    (evalRule demoEnv "t" ruleAttach ["x@y.com"] "bob@acme.com" "1.2.3.4").2 ≠ .matched ∧
    ∃ m, (evalRule demoEnv "t" ruleAttach ["x@y.com"] "bob@acme.com" "1.2.3.4").2 =
      .fatal (.notImplemented m) :=
  have h := C8_unimpl_fields_fatal demoEnv "t" ruleAttach ["x@y.com"] "bob@acme.com" "1.2.3.4"
    (Or.inl rfl)
  ⟨h.1, h.2 "bob" "acme.com" [] rfl rfl rfl rfl rfl⟩

/-- C9 amended: every successful load stores
`toUTC localOffset dt` as the datastore's `revision_datetime`: an
offset-aware parsed timestamp is indeed converted to the UTC
representation (it equals the spec's conversion), but a naive one is only
localized - the stored value keeps the wall-clock reading with the
process-local offset attached instead of being rescaled to offset zero.
The stored value always denotes the same absolute instant as the UTC value
the claim describes. -/
theorem C9_revision_datetime_stored (env : Env) (st : RouterInstanceType) (doc : ConfigDoc)
    (ds : RulesDatastore) (h : load_from_jsonfile env st doc = .ok ds) :
    ∃ s dt, doc.revision_datetime = some s ∧ env.parseDt s = some dt ∧
      ds.revision_datetime = toUTC env.localOffset dt ∧
      ds.revision_datetime.instant = (revisionToUTC_spec env.localOffset dt).instant ∧
      (∀ off, dt.offset = some off →
        ds.revision_datetime = revisionToUTC_spec env.localOffset dt) ∧
      (dt.offset = none →
        ds.revision_datetime = { wall := dt.wall, offset := some env.localOffset }) := by
  simp only [load_from_jsonfile] at h
  split at h
  · exact Except.noConfusion h
  · split at h
    · rename_i nm rev dts ity rr hnm hrev hdts hity hrr
      split at h
      · exact Except.noConfusion h
      · split at h
        · exact Except.noConfusion h
        · split at h
          · exact Except.noConfusion h
          · rename_i dt hdt
            split at h
            · exact Except.noConfusion h
            · rename_i it hit
              split at h
              · exact Except.noConfusion h
              · split at h
                · exact Except.noConfusion h
                · split at h
                  · exact Except.noConfusion h
                  · rename_i ds2 hpa
                    injection h with h2
                    subst h2
                    obtain ⟨-, hdt2, -, -, -, -⟩ :=
                      processAll_ok_shape env rr.flatten _ ds2 hpa
                    have hrd : ds2.revision_datetime = toUTC env.localOffset dt := by
                      simpa using hdt2
                    refine ⟨dts, dt, hdts, hdt, by simpa using hrd, ?_, ?_, ?_⟩
                    · show ds2.revision_datetime.instant = _
                      rw [hrd]
                      exact (toUTC_vs_spec env.localOffset dt).1
                    · intro off hoff
                      show ds2.revision_datetime = _
                      rw [hrd]
                      exact (toUTC_vs_spec env.localOffset dt).2.1 off hoff
                    · intro hoff
                      show ds2.revision_datetime = _
                      rw [hrd]
                      exact (toUTC_vs_spec env.localOffset dt).2.2 hoff
    · exact Except.noConfusion h

/-- C9 counterexample: with the process at UTC offset -300 minutes, loading
`docGood` (whose `revision_datetime` literal is naive) stores the
wall-clock value with offset -300 attached - not the UTC representation the
claim requires, which would be the spec conversion
`revisionToUTC_spec` yielding offset 0. -/
theorem C9_naive_not_utc_cex :
    demoEnv.localOffset = -300 ∧
    demoEnv.parseDt "2019-04-12T07:00:00" = some { wall := 259200, offset := none } ∧
    (load_from_jsonfile demoEnv .BLUE docGood).map (fun ds => ds.revision_datetime)
      = .ok { wall := 259200, offset := some (-300) } ∧
    revisionToUTC_spec demoEnv.localOffset { wall := 259200, offset := none }
      = { wall := 259500, offset := some 0 } ∧
    ({ wall := 259200, offset := some (-300) } : Datetime)
      ≠ { wall := 259500, offset := some 0 } := by
  refine ⟨rfl, rfl, by rfl, by rfl, by decide⟩

/-- Witness for C9 at the concrete successful load of `docGood` into
`dsGoodLoaded`. -/
theorem C9_revision_datetime_stored_witness :
    ∃ s dt, docGood.revision_datetime = some s ∧ demoEnv.parseDt s = some dt ∧
      dsGoodLoaded.revision_datetime = toUTC demoEnv.localOffset dt ∧
      dsGoodLoaded.revision_datetime.instant =
        (revisionToUTC_spec demoEnv.localOffset dt).instant ∧
      (∀ off, dt.offset = some off →
        dsGoodLoaded.revision_datetime = revisionToUTC_spec demoEnv.localOffset dt) ∧
      (dt.offset = none →
        dsGoodLoaded.revision_datetime = { wall := dt.wall, offset := some demoEnv.localOffset }) :=
  C9_revision_datetime_stored demoEnv .BLUE docGood dsGoodLoaded (by rfl)

/-- C10: the claim states every activated datastore holds at least one
target because the loader rejects an empty `router_rules` list.  The
rejection of the empty list is real, and each processed
`(name, config)` entry adds exactly one target, so on success the target
count equals the total number of entries across the `router_rules` maps -
but a non-empty list made of empty maps contains zero entries, activating a
datastore with zero targets. -/
theorem C10_activation_target_count (env : Env) (st : RouterInstanceType) (doc : ConfigDoc) :
    (doc.router_rules = some [] →
      ∃ m, load_from_jsonfile env st doc = .error (.dbInitError m)) ∧
    (∀ ds, load_from_jsonfile env st doc = .ok ds →
      ∃ rr, doc.router_rules = some rr ∧ ds.activated = true ∧
        ds.target_count = rr.flatten.length) := by
  constructor
  · intro hempty
    simp only [load_from_jsonfile]
    split
    · exact ⟨_, rfl⟩
    · split
      · rename_i nm rev dts ity rr hnm hrev hdts hity hrr
        rw [hempty] at hrr
        injection hrr with hrr2
        subst hrr2
        split
        · exact ⟨_, rfl⟩
        · split
          · exact ⟨_, rfl⟩
          · split
            · exact ⟨_, rfl⟩
            · split
              · exact ⟨_, rfl⟩
              · split
                · exact ⟨_, rfl⟩
                · rw [if_pos (by simp)]
                  exact ⟨_, rfl⟩
      · exact ⟨_, rfl⟩
  · intro ds h
    simp only [load_from_jsonfile] at h
    split at h
    · exact Except.noConfusion h
    · split at h
      · rename_i nm rev dts ity rr hnm hrev hdts hity hrr
        split at h
        · exact Except.noConfusion h
        · split at h
          · exact Except.noConfusion h
          · split at h
            · exact Except.noConfusion h
            · rename_i dt hdt
              split at h
              · exact Except.noConfusion h
              · rename_i it hit
                split at h
                · exact Except.noConfusion h
                · split at h
                  · exact Except.noConfusion h
                  · split at h
                    · exact Except.noConfusion h
                    · rename_i ds2 hpa
                      injection h with h2
                      subst h2
                      obtain ⟨-, -, -, -, hact, hlen⟩ :=
                        processAll_ok_shape env rr.flatten _ ds2 hpa
                      refine ⟨rr, hrr, rfl, ?_⟩
                      show ds2.router_config_by_target.length = _
                      simpa using hlen
      · exact Except.noConfusion h

/-- C10 counterexample: the document whose `router_rules` is the non-empty
list `[ {} ]` (one empty map) passes the emptiness check, contributes no
target entry, and activates a datastore whose target count is zero. -/
theorem C10_zero_target_activation_cex :
    (load_from_jsonfile demoEnv .BLUE docEmptyMap).map
      (fun ds => (ds.activated, ds.target_count)) = .ok (true, 0) := by rfl

/-- Witness for C10: the empty `router_rules` list is rejected, and the
successful load of `docGood` activates with one target for its one entry. -/
theorem C10_activation_target_count_witness :
    (∃ m, load_from_jsonfile demoEnv .BLUE docTopLevel = .error (.dbInitError m)) ∧
    (∃ rr, docGood.router_rules = some rr ∧ dsGoodLoaded.activated = true ∧
      dsGoodLoaded.target_count = rr.flatten.length) :=
  ⟨(C10_activation_target_count demoEnv .BLUE docTopLevel).1 rfl,
   (C10_activation_target_count demoEnv .BLUE docGood).2 dsGoodLoaded (by rfl)⟩

end EmeraldRouter
